import Mathlib

/-!
# Verification of the schema-versioned save-state migration engine

Shallow embedding of `src/main.rs`: the versioned save-state record types
(V1/V2/V3), the per-version upgrade transforms, the `GameState` tagged union
with its `upgrade_version` / `convert_to_latest` migration loop, and the JSON
envelope codec (`save_to_json` / `init_from_json`).

Modelling conventions:
* `hecs::Entity` is an opaque handle owned by the external `hecs` crate; with
  the `serde` feature it serializes as its `u64` bit representation
  (generation in the upper 32 bits, nonzero; slot index in the lower 32).
  We model it as a one-field structure holding those bits as a `Nat`;
  migration code only copies and compares it.
* `serde_json` values are modelled by the inductive `Json`; the string layer
  (`to_string` / `from_str`) is a faithful inverse pair in `serde_json`, so
  encode/decode are modelled at the parsed-value level: `save_to_json`
  produces the `Json` tree that would be printed, and `init_from_json`
  consumes the `Json` tree that parsing the input string would produce.
* serde's derived struct deserialization is strict about missing fields and
  value types but (absent `deny_unknown_fields`, which these structs do not
  use) ignores unknown fields; the field decoders below implement exactly
  that: required-key lookup, range-checked integers, closed string enums.
* Rust `u32` fields are modelled as `Nat` with the range checks appearing
  where serde performs them (at decode time); well-formedness predicates
  (`WF`) record the ranges a value produced by the real program satisfies.
-/

/-- Rust `hecs::Entity`, modelled by its `u64` bit representation: an opaque
(index, generation) handle, compared by equality and never rebuilt by
migration code. -/
structure Entity where
  bits : Nat
deriving DecidableEq, Repr

/-- A valid `hecs::Entity` bit pattern: fits in a `u64` and has a nonzero
generation (upper 32 bits), as required by `hecs::Entity::from_bits`. -/
def EntityWF (e : Entity) : Prop := 2 ^ 32 ≤ e.bits ∧ e.bits < 2 ^ 64

instance (e : Entity) : Decidable (EntityWF e) :=
  inferInstanceAs (Decidable (_ ∧ _))

-- ------------------------------------------------------
-- Version 1 record shapes (`V1SavePlayer`, `V1SaveMonster`, `V1SaveState`)

/-- Rust `struct V1SavePlayer { entity, health: u32, level: u32, target: Option<Entity> }` -/
structure V1SavePlayer where
  entity : Entity
  health : Nat
  level : Nat
  target : Option Entity
deriving DecidableEq, Repr

/-- Rust `struct V1SaveMonster { entity, health: u32 }` -/
structure V1SaveMonster where
  entity : Entity
  health : Nat
deriving DecidableEq, Repr

/-- Rust `struct V1SaveState { players, monsters }` -/
structure V1SaveState where
  players : List V1SavePlayer
  monsters : List V1SaveMonster
deriving DecidableEq, Repr

-- ------------------------------------------------------
-- Version 2 record shapes

/-- Rust `struct V2SavePlayer`: V1 fields plus `exp: u32` and `damage: u32`. -/
structure V2SavePlayer where
  entity : Entity
  health : Nat
  level : Nat
  target : Option Entity
  exp : Nat
  damage : Nat
deriving DecidableEq, Repr

/-- Rust `struct V2SaveMonster`: V1 fields plus `damage: u32`. -/
structure V2SaveMonster where
  entity : Entity
  health : Nat
  damage : Nat
deriving DecidableEq, Repr

/-- Rust `struct V2SaveState { players, monsters }` -/
structure V2SaveState where
  players : List V2SavePlayer
  monsters : List V2SaveMonster
deriving DecidableEq, Repr

-- ------------------------------------------------------
-- Version 3 record shapes

/-- Rust `struct V3SavePlayer`: V2 fields with `exp` removed. -/
structure V3SavePlayer where
  entity : Entity
  health : Nat
  level : Nat
  target : Option Entity
  damage : Nat
deriving DecidableEq, Repr

/-- Rust `enum V3MonsterVariant { Angry, Scary }` -/
inductive V3MonsterVariant where
  | Angry : V3MonsterVariant
  | Scary : V3MonsterVariant
deriving DecidableEq, Repr

/-- Rust `struct V3SaveMonster`: V2 fields plus `variant: V3MonsterVariant`. -/
structure V3SaveMonster where
  entity : Entity
  health : Nat
  damage : Nat
  variant : V3MonsterVariant
deriving DecidableEq, Repr

/-- Rust `struct V3SaveState { players, monsters }` -/
structure V3SaveState where
  players : List V3SavePlayer
  monsters : List V3SaveMonster
deriving DecidableEq, Repr

-- ------------------------------------------------------
-- Per-version upgrade transforms

/-- The transform `V1SaveState::upgrade`: V1 → V2. New attributes are backfilled with the
declared defaults `exp = 0`, player `damage = 5`, monster `damage = 2`. -/
def V1SaveState.upgrade (s : V1SaveState) : V2SaveState :=
  { players := s.players.map (fun x =>
      { entity := x.entity
        health := x.health
        level := x.level
        target := x.target
        exp := 0
        damage := 5 })
    monsters := s.monsters.map (fun x =>
      { entity := x.entity
        health := x.health
        damage := 2 }) }

/-- The transform `V2SaveState::upgrade`: V2 → V3. Drops the player `exp` attribute and
backfills the new monster `variant` with the default case `Angry`. -/
def V2SaveState.upgrade (s : V2SaveState) : V3SaveState :=
  { players := s.players.map (fun x =>
      { entity := x.entity
        health := x.health
        level := x.level
        target := x.target
        damage := x.damage })
    monsters := s.monsters.map (fun x =>
      { entity := x.entity
        health := x.health
        damage := x.damage
        variant := V3MonsterVariant.Angry }) }

-- ------------------------------------------------------
-- The `GameState` tagged union and the migration engine

/-- Rust `enum GameState`, serde-tagged with `tag = "version"`, `content = "data"`
and tags `"1.0"`, `"2.0"`, `"3.0"`. -/
inductive GameState where
  | V1_0 : V1SaveState → GameState
  | V2_0 : V2SaveState → GameState
  | V3_0 : V3SaveState → GameState
deriving DecidableEq, Repr

namespace GameState

/-- The constant `GameState::VERSION_FIELD_NAME`. -/
def VERSION_FIELD_NAME : String := "version"

/-- The constant `GameState::DATA_FIELD_NAME`. -/
def DATA_FIELD_NAME : String := "data"

/-- The serde tag string of each variant (`#[serde(rename = ...)]`). -/
def versionTag : GameState → String
  | .V1_0 _ => "1.0"
  | .V2_0 _ => "2.0"
  | .V3_0 _ => "3.0"

/-- Position of each version in the declared chain (V1 = 0, V2 = 1, V3 = 2). -/
def versionIdx : GameState → Nat
  | .V1_0 _ => 0
  | .V2_0 _ => 1
  | .V3_0 _ => 2

/-- Index of the latest declared version (V3). -/
def latestVersionIdx : Nat := 2

/-- The loop guard `matches!(cc, GameState::V3_0(_))`. -/
def isLatest : GameState → Bool
  | .V3_0 _ => true
  | _ => false

/-- The method `GameState::upgrade_version`: one step of the migration chain; the
terminal version maps to itself. -/
def upgrade_version : GameState → GameState
  | .V1_0 x => .V2_0 x.upgrade
  | .V2_0 x => .V3_0 x.upgrade
  | .V3_0 x => .V3_0 x

/-- The `while !matches!(cc, GameState::V3_0(_))` loop body of
`convert_to_latest`, driven by the current value's version. -/
def convertLoop (cc : GameState) : GameState :=
  if cc.isLatest then cc
  else convertLoop cc.upgrade_version
termination_by latestVersionIdx - cc.versionIdx
decreasing_by
  cases cc <;>
    simp_all [isLatest, upgrade_version, versionIdx, latestVersionIdx]

/-- The method `GameState::convert_to_latest`: first applies `upgrade_version` once,
then loops until the value reports the latest version. -/
def convert_to_latest (s : GameState) : GameState :=
  convertLoop s.upgrade_version

end GameState

theorem convertLoop_latest (x : V3SaveState) :
    GameState.convertLoop (.V3_0 x) = .V3_0 x := by
  rw [GameState.convertLoop]
  simp [GameState.isLatest]

theorem convertLoop_v2 (x : V2SaveState) :
    GameState.convertLoop (.V2_0 x) = .V3_0 x.upgrade := by
  rw [GameState.convertLoop]
  simp [GameState.isLatest, GameState.upgrade_version, convertLoop_latest]

theorem convertLoop_v1 (x : V1SaveState) :
    GameState.convertLoop (.V1_0 x) = .V3_0 x.upgrade.upgrade := by
  rw [GameState.convertLoop]
  simp [GameState.isLatest, GameState.upgrade_version, convertLoop_v2]

/-- The result of `convert_to_latest` computed on each variant. -/
theorem convert_to_latest_v1 (x : V1SaveState) :
    GameState.convert_to_latest (.V1_0 x) = .V3_0 x.upgrade.upgrade := by
  simp [GameState.convert_to_latest, GameState.upgrade_version, convertLoop_v2]

theorem convert_to_latest_v2 (x : V2SaveState) :
    GameState.convert_to_latest (.V2_0 x) = .V3_0 x.upgrade := by
  simp [GameState.convert_to_latest, GameState.upgrade_version, convertLoop_latest]

theorem convert_to_latest_v3 (x : V3SaveState) :
    GameState.convert_to_latest (.V3_0 x) = .V3_0 x := by
  simp [GameState.convert_to_latest, GameState.upgrade_version, convertLoop_latest]

-- ------------------------------------------------------
-- JSON values (the parsed form of a `serde_json::Value`)

/-- A parsed `serde_json::Value`. Objects are finite association lists;
serde's decoders look fields up by key, so attribute order is irrelevant
to decoding. -/
inductive Json where
  | null : Json
  | bool : Bool → Json
  | num : Int → Json
  | str : String → Json
  | arr : List Json → Json
  | obj : List (String × Json) → Json
deriving Repr

/-- First-match key lookup in a JSON object's field list
(`serde_json::Map::get`). -/
def lookupField : List (String × Json) → String → Option Json
  | [], _ => none
  | (k, v) :: rest, key => if k = key then some v else lookupField rest key

/-- Rust `Value::index` with a string key (`parsed["version"]`): field lookup on
an object, `Null` for a missing key or a non-object. -/
def Json.get (j : Json) (key : String) : Json :=
  match j with
  | .obj fields => (lookupField fields key).getD .null
  | _ => .null

/-- Rust `Value::as_str`. -/
def Json.asStr : Json → Option String
  | .str s => some s
  | _ => none

-- ------------------------------------------------------
-- Field decoders (serde's derived `Deserialize` impls)

/-- Decode errors. The source returns boxed error values: the distinguished
`"Unknown version"` error from `init_from_json`'s tag match, and serde's
deserialization errors for payloads that do not match the schema. -/
inductive DecodeError where
  | unknownVersion : DecodeError
  | malformedPayload : DecodeError
deriving DecidableEq, Repr

/-- Look up a required struct field; serde errors on a missing field. -/
def reqField (fields : List (String × Json)) (key : String)
    (dec : Json → Except DecodeError α) : Except DecodeError α :=
  match lookupField fields key with
  | some v => dec v
  | none => .error .malformedPayload

/-- Decode a `u32`: a JSON integer in `[0, 2^32)`; anything else is a serde
type/value error. -/
def decodeU32 : Json → Except DecodeError Nat
  | .num n => if 0 ≤ n ∧ n < 4294967296 then .ok n.toNat else .error .malformedPayload
  | _ => .error .malformedPayload

/-- Decode a `hecs::Entity`: a `u64` bit pattern whose generation half
(upper 32 bits) is nonzero, per `Entity::from_bits`. -/
def decodeEntity : Json → Except DecodeError Entity
  | .num n =>
      if 4294967296 ≤ n ∧ n < 18446744073709551616 then .ok ⟨n.toNat⟩
      else .error .malformedPayload
  | _ => .error .malformedPayload

/-- Decode an `Option<hecs::Entity>`: `null` is `None`, otherwise the
entity decoder runs on the value. -/
def decodeOptionEntity : Json → Except DecodeError (Option Entity)
  | .null => .ok none
  | j => (decodeEntity j).map some

/-- Decode a JSON array elementwise. -/
def decodeListAux (dec : Json → Except DecodeError α) :
    List Json → Except DecodeError (List α)
  | [] => .ok []
  | x :: xs => do
      let a ← dec x
      let rest ← decodeListAux dec xs
      pure (a :: rest)

/-- Decode a `Vec<T>`: a JSON array of `T`s. -/
def decodeList (dec : Json → Except DecodeError α) :
    Json → Except DecodeError (List α)
  | .arr xs => decodeListAux dec xs
  | _ => .error .malformedPayload

/-- Decode `V3MonsterVariant`: a closed string enum, any other value is a
serde unknown-variant error. -/
def decodeV3MonsterVariant : Json → Except DecodeError V3MonsterVariant
  | .str "Angry" => .ok .Angry
  | .str "Scary" => .ok .Scary
  | _ => .error .malformedPayload

/-- Derived deserializer for `V1SavePlayer`: each declared field is
required; unknown fields are ignored (no `deny_unknown_fields`). -/
def decodeV1SavePlayer : Json → Except DecodeError V1SavePlayer
  | .obj fields => do
      let entity ← reqField fields "entity" decodeEntity
      let health ← reqField fields "health" decodeU32
      let level ← reqField fields "level" decodeU32
      let target ← reqField fields "target" decodeOptionEntity
      pure { entity, health, level, target }
  | _ => .error .malformedPayload

/-- Derived deserializer for `V1SaveMonster`. -/
def decodeV1SaveMonster : Json → Except DecodeError V1SaveMonster
  | .obj fields => do
      let entity ← reqField fields "entity" decodeEntity
      let health ← reqField fields "health" decodeU32
      pure { entity, health }
  | _ => .error .malformedPayload

/-- Derived deserializer for `V1SaveState`. -/
def decodeV1SaveState : Json → Except DecodeError V1SaveState
  | .obj fields => do
      let players ← reqField fields "players" (decodeList decodeV1SavePlayer)
      let monsters ← reqField fields "monsters" (decodeList decodeV1SaveMonster)
      pure { players, monsters }
  | _ => .error .malformedPayload

/-- Derived deserializer for `V2SavePlayer`. -/
def decodeV2SavePlayer : Json → Except DecodeError V2SavePlayer
  | .obj fields => do
      let entity ← reqField fields "entity" decodeEntity
      let health ← reqField fields "health" decodeU32
      let level ← reqField fields "level" decodeU32
      let target ← reqField fields "target" decodeOptionEntity
      let exp ← reqField fields "exp" decodeU32
      let damage ← reqField fields "damage" decodeU32
      pure { entity, health, level, target, exp, damage }
  | _ => .error .malformedPayload

/-- Derived deserializer for `V2SaveMonster`. -/
def decodeV2SaveMonster : Json → Except DecodeError V2SaveMonster
  | .obj fields => do
      let entity ← reqField fields "entity" decodeEntity
      let health ← reqField fields "health" decodeU32
      let damage ← reqField fields "damage" decodeU32
      pure { entity, health, damage }
  | _ => .error .malformedPayload

/-- Derived deserializer for `V2SaveState`. -/
def decodeV2SaveState : Json → Except DecodeError V2SaveState
  | .obj fields => do
      let players ← reqField fields "players" (decodeList decodeV2SavePlayer)
      let monsters ← reqField fields "monsters" (decodeList decodeV2SaveMonster)
      pure { players, monsters }
  | _ => .error .malformedPayload

/-- Derived deserializer for `V3SavePlayer` (no `exp` field declared). -/
def decodeV3SavePlayer : Json → Except DecodeError V3SavePlayer
  | .obj fields => do
      let entity ← reqField fields "entity" decodeEntity
      let health ← reqField fields "health" decodeU32
      let level ← reqField fields "level" decodeU32
      let target ← reqField fields "target" decodeOptionEntity
      let damage ← reqField fields "damage" decodeU32
      pure { entity, health, level, target, damage }
  | _ => .error .malformedPayload

/-- Derived deserializer for `V3SaveMonster`. -/
def decodeV3SaveMonster : Json → Except DecodeError V3SaveMonster
  | .obj fields => do
      let entity ← reqField fields "entity" decodeEntity
      let health ← reqField fields "health" decodeU32
      let damage ← reqField fields "damage" decodeU32
      let variant ← reqField fields "variant" decodeV3MonsterVariant
      pure { entity, health, damage, variant }
  | _ => .error .malformedPayload

/-- Derived deserializer for `V3SaveState`. -/
def decodeV3SaveState : Json → Except DecodeError V3SaveState
  | .obj fields => do
      let players ← reqField fields "players" (decodeList decodeV3SavePlayer)
      let monsters ← reqField fields "monsters" (decodeList decodeV3SaveMonster)
      pure { players, monsters }
  | _ => .error .malformedPayload

-- ------------------------------------------------------
-- Field encoders (serde's derived `Serialize` impls)

/-- Serialize a `hecs::Entity` as its `u64` bits. -/
def encodeEntity (e : Entity) : Json := .num e.bits

/-- Serialize an `Option<hecs::Entity>`: `None` is `null`. -/
def encodeOptionEntity : Option Entity → Json
  | none => .null
  | some e => encodeEntity e

/-- Derived serializer for `V1SavePlayer`. -/
def encodeV1SavePlayer (p : V1SavePlayer) : Json :=
  .obj [("entity", encodeEntity p.entity), ("health", .num p.health),
        ("level", .num p.level), ("target", encodeOptionEntity p.target)]

/-- Derived serializer for `V1SaveMonster`. -/
def encodeV1SaveMonster (m : V1SaveMonster) : Json :=
  .obj [("entity", encodeEntity m.entity), ("health", .num m.health)]

/-- Derived serializer for `V1SaveState`. -/
def encodeV1SaveState (s : V1SaveState) : Json :=
  .obj [("players", .arr (s.players.map encodeV1SavePlayer)),
        ("monsters", .arr (s.monsters.map encodeV1SaveMonster))]

/-- Derived serializer for `V2SavePlayer`. -/
def encodeV2SavePlayer (p : V2SavePlayer) : Json :=
  .obj [("entity", encodeEntity p.entity), ("health", .num p.health),
        ("level", .num p.level), ("target", encodeOptionEntity p.target),
        ("exp", .num p.exp), ("damage", .num p.damage)]

/-- Derived serializer for `V2SaveMonster`. -/
def encodeV2SaveMonster (m : V2SaveMonster) : Json :=
  .obj [("entity", encodeEntity m.entity), ("health", .num m.health),
        ("damage", .num m.damage)]

/-- Derived serializer for `V2SaveState`. -/
def encodeV2SaveState (s : V2SaveState) : Json :=
  .obj [("players", .arr (s.players.map encodeV2SavePlayer)),
        ("monsters", .arr (s.monsters.map encodeV2SaveMonster))]

/-- Derived serializer for `V3MonsterVariant` (unit variants as strings). -/
def encodeV3MonsterVariant : V3MonsterVariant → Json
  | .Angry => .str "Angry"
  | .Scary => .str "Scary"

/-- Derived serializer for `V3SavePlayer`; the schema declares no `exp`
attribute, so none is emitted. -/
def encodeV3SavePlayer (p : V3SavePlayer) : Json :=
  .obj [("entity", encodeEntity p.entity), ("health", .num p.health),
        ("level", .num p.level), ("target", encodeOptionEntity p.target),
        ("damage", .num p.damage)]

/-- Derived serializer for `V3SaveMonster`. -/
def encodeV3SaveMonster (m : V3SaveMonster) : Json :=
  .obj [("entity", encodeEntity m.entity), ("health", .num m.health),
        ("damage", .num m.damage),
        ("variant", encodeV3MonsterVariant m.variant)]

/-- Derived serializer for `V3SaveState`. -/
def encodeV3SaveState (s : V3SaveState) : Json :=
  .obj [("players", .arr (s.players.map encodeV3SavePlayer)),
        ("monsters", .arr (s.monsters.map encodeV3SaveMonster))]

/-- The keys of a JSON object (empty for non-objects). -/
def Json.objKeys : Json → List String
  | .obj fields => fields.map Prod.fst
  | _ => []

namespace GameState

/-- The method `GameState::save_to_json`: serde's adjacently tagged encoding, the
envelope `{"version": <own tag>, "data": <payload>}`; the held version is
serialized as-is, never upgraded first. -/
def save_to_json : GameState → Json
  | .V1_0 s => .obj [(VERSION_FIELD_NAME, .str "1.0"),
                     (DATA_FIELD_NAME, encodeV1SaveState s)]
  | .V2_0 s => .obj [(VERSION_FIELD_NAME, .str "2.0"),
                     (DATA_FIELD_NAME, encodeV2SaveState s)]
  | .V3_0 s => .obj [(VERSION_FIELD_NAME, .str "3.0"),
                     (DATA_FIELD_NAME, encodeV3SaveState s)]

/-- The tag-dispatch match inside `init_from_json`: reads
`parsed["version"].as_str()`, decodes the `data` payload against the schema
that tag names, and rejects every other tag with the unknown-version
error. -/
def decode_tagged (parsed : Json) : Except DecodeError GameState :=
  match (parsed.get VERSION_FIELD_NAME).asStr with
  | some "1.0" => (decodeV1SaveState (parsed.get DATA_FIELD_NAME)).map GameState.V1_0
  | some "2.0" => (decodeV2SaveState (parsed.get DATA_FIELD_NAME)).map GameState.V2_0
  | some "3.0" => (decodeV3SaveState (parsed.get DATA_FIELD_NAME)).map GameState.V3_0
  | _ => .error .unknownVersion

/-- The method `GameState::init_from_json` (at the parsed-`Value` level): decode the
envelope by tag, then `convert_to_latest` on the decoded version. -/
def init_from_json (parsed : Json) : Except DecodeError GameState :=
  (decode_tagged parsed).map convert_to_latest

end GameState

-- ------------------------------------------------------
-- Instrumented migration loop (for the step-count property)

namespace GameState

/-- The method `upgrade_version`, instrumented with the number of per-version upgrade
transforms (`V1SaveState::upgrade` / `V2SaveState::upgrade`) it invokes:
one for a non-terminal version, zero for the terminal identity arm. -/
def upgrade_version_counted : GameState → GameState × Nat
  | .V1_0 x => (.V2_0 x.upgrade, 1)
  | .V2_0 x => (.V3_0 x.upgrade, 1)
  | .V3_0 x => (.V3_0 x, 0)

/-- The `convert_to_latest` loop, instrumented with the running transform
count. -/
def convertLoopCounted (cc : GameState) (acc : Nat) : GameState × Nat :=
  if cc.isLatest then (cc, acc)
  else convertLoopCounted cc.upgrade_version_counted.1 (acc + cc.upgrade_version_counted.2)
termination_by latestVersionIdx - cc.versionIdx
decreasing_by
  cases cc <;>
    simp_all [isLatest, upgrade_version_counted, versionIdx, latestVersionIdx]

/-- The method `convert_to_latest`, instrumented: returns the migrated value together
with the number of per-version upgrade transforms applied. -/
def convert_to_latest_counted (s : GameState) : GameState × Nat :=
  convertLoopCounted s.upgrade_version_counted.1 s.upgrade_version_counted.2

end GameState

-- ------------------------------------------------------
-- Well-formedness: the numeric ranges every value held by the real program
-- satisfies (`u32` fields fit in 32 bits, entity bits are a valid handle)

/-- Well-formed optional entity reference. -/
def OptionEntityWF : Option Entity → Prop
  | none => True
  | some e => EntityWF e

instance (o : Option Entity) : Decidable (OptionEntityWF o) :=
  match o with
  | none => .isTrue trivial
  | some e => inferInstanceAs (Decidable (EntityWF e))

/-- Well-formed `V1SavePlayer`. -/
def V1SavePlayerWF (p : V1SavePlayer) : Prop :=
  EntityWF p.entity ∧ p.health < 2 ^ 32 ∧ p.level < 2 ^ 32 ∧ OptionEntityWF p.target

/-- Well-formed `V1SaveMonster`. -/
def V1SaveMonsterWF (m : V1SaveMonster) : Prop :=
  EntityWF m.entity ∧ m.health < 2 ^ 32

/-- Well-formed `V1SaveState`. -/
def V1SaveStateWF (s : V1SaveState) : Prop :=
  (∀ p ∈ s.players, V1SavePlayerWF p) ∧ (∀ m ∈ s.monsters, V1SaveMonsterWF m)

/-- Well-formed `V2SavePlayer`. -/
def V2SavePlayerWF (p : V2SavePlayer) : Prop :=
  EntityWF p.entity ∧ p.health < 2 ^ 32 ∧ p.level < 2 ^ 32 ∧
    OptionEntityWF p.target ∧ p.exp < 2 ^ 32 ∧ p.damage < 2 ^ 32

/-- Well-formed `V2SaveMonster`. -/
def V2SaveMonsterWF (m : V2SaveMonster) : Prop :=
  EntityWF m.entity ∧ m.health < 2 ^ 32 ∧ m.damage < 2 ^ 32

/-- Well-formed `V2SaveState`. -/
def V2SaveStateWF (s : V2SaveState) : Prop :=
  (∀ p ∈ s.players, V2SavePlayerWF p) ∧ (∀ m ∈ s.monsters, V2SaveMonsterWF m)

/-- Well-formed `V3SavePlayer`. -/
def V3SavePlayerWF (p : V3SavePlayer) : Prop :=
  EntityWF p.entity ∧ p.health < 2 ^ 32 ∧ p.level < 2 ^ 32 ∧
    OptionEntityWF p.target ∧ p.damage < 2 ^ 32

/-- Well-formed `V3SaveMonster`. -/
def V3SaveMonsterWF (m : V3SaveMonster) : Prop :=
  EntityWF m.entity ∧ m.health < 2 ^ 32 ∧ m.damage < 2 ^ 32

/-- Well-formed `V3SaveState`. -/
def V3SaveStateWF (s : V3SaveState) : Prop :=
  (∀ p ∈ s.players, V3SavePlayerWF p) ∧ (∀ m ∈ s.monsters, V3SaveMonsterWF m)

instance (p : V1SavePlayer) : Decidable (V1SavePlayerWF p) :=
  inferInstanceAs (Decidable (_ ∧ _))

instance (m : V1SaveMonster) : Decidable (V1SaveMonsterWF m) :=
  inferInstanceAs (Decidable (_ ∧ _))

instance (s : V1SaveState) : Decidable (V1SaveStateWF s) :=
  inferInstanceAs (Decidable (_ ∧ _))

instance (p : V2SavePlayer) : Decidable (V2SavePlayerWF p) :=
  inferInstanceAs (Decidable (_ ∧ _))

instance (m : V2SaveMonster) : Decidable (V2SaveMonsterWF m) :=
  inferInstanceAs (Decidable (_ ∧ _))

instance (s : V2SaveState) : Decidable (V2SaveStateWF s) :=
  inferInstanceAs (Decidable (_ ∧ _))

instance (p : V3SavePlayer) : Decidable (V3SavePlayerWF p) :=
  inferInstanceAs (Decidable (_ ∧ _))

instance (m : V3SaveMonster) : Decidable (V3SaveMonsterWF m) :=
  inferInstanceAs (Decidable (_ ∧ _))

instance (s : V3SaveState) : Decidable (V3SaveStateWF s) :=
  inferInstanceAs (Decidable (_ ∧ _))

/-- Well-formed `GameState`: the held payload is well-formed. -/
def GameStateWF : GameState → Prop
  | .V1_0 s => V1SaveStateWF s
  | .V2_0 s => V2SaveStateWF s
  | .V3_0 s => V3SaveStateWF s

instance (gs : GameState) : Decidable (GameStateWF gs) :=
  match gs with
  | .V1_0 s => inferInstanceAs (Decidable (V1SaveStateWF s))
  | .V2_0 s => inferInstanceAs (Decidable (V2SaveStateWF s))
  | .V3_0 s => inferInstanceAs (Decidable (V3SaveStateWF s))

-- ------------------------------------------------------
-- Round-trip lemmas: each decoder inverts its encoder on well-formed values

theorem decodeEntity_encodeEntity (e : Entity) (h : EntityWF e) :
    decodeEntity (encodeEntity e) = .ok e := by
  have h1 : (4294967296 : Int) ≤ (e.bits : Int) := by exact_mod_cast h.1
  have h2 : (e.bits : Int) < 18446744073709551616 := by exact_mod_cast h.2
  simp [encodeEntity, decodeEntity, h1, h2]

theorem decodeU32_num (n : Nat) (h : n < 2 ^ 32) :
    decodeU32 (.num n) = .ok n := by
  have h1 : (n : Int) < 4294967296 := by exact_mod_cast h
  simp [decodeU32, h1]

theorem decodeOptionEntity_encode (o : Option Entity) (h : OptionEntityWF o) :
    decodeOptionEntity (encodeOptionEntity o) = .ok o := by
  cases o with
  | none => rfl
  | some e =>
      have hd := decodeEntity_encodeEntity e h
      simp only [encodeEntity] at hd
      simp [encodeOptionEntity, encodeEntity, decodeOptionEntity, hd]
      all_goals rfl

theorem decodeListAux_map (dec : Json → Except DecodeError α) (enc : α → Json)
    (xs : List α) (h : ∀ x ∈ xs, dec (enc x) = .ok x) :
    decodeListAux dec (xs.map enc) = .ok xs := by
  induction xs with
  | nil => simp [decodeListAux]
  | cons x xs ih =>
      have hx : dec (enc x) = .ok x := h x (by simp)
      have hrest : decodeListAux dec (xs.map enc) = .ok xs :=
        ih fun y hy => h y (by simp [hy])
      simp [decodeListAux, hx, hrest]
      all_goals rfl

theorem decodeV1SavePlayer_encode (p : V1SavePlayer) (h : V1SavePlayerWF p) :
    decodeV1SavePlayer (encodeV1SavePlayer p) = .ok p := by
  obtain ⟨he, hh, hl, ht⟩ := h
  simp [encodeV1SavePlayer, decodeV1SavePlayer, reqField, lookupField,
    decodeEntity_encodeEntity p.entity he, decodeU32_num p.health hh,
    decodeU32_num p.level hl, decodeOptionEntity_encode p.target ht]
  all_goals rfl

theorem decodeV1SaveMonster_encode (m : V1SaveMonster) (h : V1SaveMonsterWF m) :
    decodeV1SaveMonster (encodeV1SaveMonster m) = .ok m := by
  obtain ⟨he, hh⟩ := h
  simp [encodeV1SaveMonster, decodeV1SaveMonster, reqField, lookupField,
    decodeEntity_encodeEntity m.entity he, decodeU32_num m.health hh]
  all_goals rfl

theorem decodeV1SaveState_encode (s : V1SaveState) (h : V1SaveStateWF s) :
    decodeV1SaveState (encodeV1SaveState s) = .ok s := by
  obtain ⟨hp, hm⟩ := h
  simp [encodeV1SaveState, decodeV1SaveState, reqField, lookupField, decodeList,
    decodeListAux_map decodeV1SavePlayer encodeV1SavePlayer s.players
      (fun p hp2 => decodeV1SavePlayer_encode p (hp p hp2)),
    decodeListAux_map decodeV1SaveMonster encodeV1SaveMonster s.monsters
      (fun m hm2 => decodeV1SaveMonster_encode m (hm m hm2))]
  all_goals rfl

theorem decodeV2SavePlayer_encode (p : V2SavePlayer) (h : V2SavePlayerWF p) :
    decodeV2SavePlayer (encodeV2SavePlayer p) = .ok p := by
  obtain ⟨he, hh, hl, ht, hx, hd⟩ := h
  simp [encodeV2SavePlayer, decodeV2SavePlayer, reqField, lookupField,
    decodeEntity_encodeEntity p.entity he, decodeU32_num p.health hh,
    decodeU32_num p.level hl, decodeOptionEntity_encode p.target ht,
    decodeU32_num p.exp hx, decodeU32_num p.damage hd]
  all_goals rfl

theorem decodeV2SaveMonster_encode (m : V2SaveMonster) (h : V2SaveMonsterWF m) :
    decodeV2SaveMonster (encodeV2SaveMonster m) = .ok m := by
  obtain ⟨he, hh, hd⟩ := h
  simp [encodeV2SaveMonster, decodeV2SaveMonster, reqField, lookupField,
    decodeEntity_encodeEntity m.entity he, decodeU32_num m.health hh,
    decodeU32_num m.damage hd]
  all_goals rfl

theorem decodeV2SaveState_encode (s : V2SaveState) (h : V2SaveStateWF s) :
    decodeV2SaveState (encodeV2SaveState s) = .ok s := by
  obtain ⟨hp, hm⟩ := h
  simp [encodeV2SaveState, decodeV2SaveState, reqField, lookupField, decodeList,
    decodeListAux_map decodeV2SavePlayer encodeV2SavePlayer s.players
      (fun p hp2 => decodeV2SavePlayer_encode p (hp p hp2)),
    decodeListAux_map decodeV2SaveMonster encodeV2SaveMonster s.monsters
      (fun m hm2 => decodeV2SaveMonster_encode m (hm m hm2))]
  all_goals rfl

theorem decodeV3MonsterVariant_encode (v : V3MonsterVariant) :
    decodeV3MonsterVariant (encodeV3MonsterVariant v) = .ok v := by
  cases v <;> rfl

theorem decodeV3SavePlayer_encode (p : V3SavePlayer) (h : V3SavePlayerWF p) :
    decodeV3SavePlayer (encodeV3SavePlayer p) = .ok p := by
  obtain ⟨he, hh, hl, ht, hd⟩ := h
  simp [encodeV3SavePlayer, decodeV3SavePlayer, reqField, lookupField,
    decodeEntity_encodeEntity p.entity he, decodeU32_num p.health hh,
    decodeU32_num p.level hl, decodeOptionEntity_encode p.target ht,
    decodeU32_num p.damage hd]
  all_goals rfl

theorem decodeV3SaveMonster_encode (m : V3SaveMonster) (h : V3SaveMonsterWF m) :
    decodeV3SaveMonster (encodeV3SaveMonster m) = .ok m := by
  obtain ⟨he, hh, hd⟩ := h
  simp [encodeV3SaveMonster, decodeV3SaveMonster, reqField, lookupField,
    decodeEntity_encodeEntity m.entity he, decodeU32_num m.health hh,
    decodeU32_num m.damage hd, decodeV3MonsterVariant_encode m.variant]
  all_goals rfl

theorem decodeV3SaveState_encode (s : V3SaveState) (h : V3SaveStateWF s) :
    decodeV3SaveState (encodeV3SaveState s) = .ok s := by
  obtain ⟨hp, hm⟩ := h
  simp [encodeV3SaveState, decodeV3SaveState, reqField, lookupField, decodeList,
    decodeListAux_map decodeV3SavePlayer encodeV3SavePlayer s.players
      (fun p hp2 => decodeV3SavePlayer_encode p (hp p hp2)),
    decodeListAux_map decodeV3SaveMonster encodeV3SaveMonster s.monsters
      (fun m hm2 => decodeV3SaveMonster_encode m (hm m hm2))]
  all_goals rfl

/-- Decoding the envelope produced by `save_to_json` recovers exactly the
serialized version: `save_to_json` never promotes, and `decode_tagged`
selects the schema the envelope's own tag names. -/
theorem decode_tagged_save_to_json (gs : GameState) (h : GameStateWF gs) :
    GameState.decode_tagged (GameState.save_to_json gs) = .ok gs := by
  cases gs with
  | V1_0 s =>
      simp [GameState.save_to_json, GameState.decode_tagged,
        GameState.VERSION_FIELD_NAME, GameState.DATA_FIELD_NAME,
        Json.get, Json.asStr, lookupField, decodeV1SaveState_encode s h]
      all_goals rfl
  | V2_0 s =>
      simp [GameState.save_to_json, GameState.decode_tagged,
        GameState.VERSION_FIELD_NAME, GameState.DATA_FIELD_NAME,
        Json.get, Json.asStr, lookupField, decodeV2SaveState_encode s h]
      all_goals rfl
  | V3_0 s =>
      simp [GameState.save_to_json, GameState.decode_tagged,
        GameState.VERSION_FIELD_NAME, GameState.DATA_FIELD_NAME,
        Json.get, Json.asStr, lookupField, decodeV3SaveState_encode s h]
      all_goals rfl

-- ------------------------------------------------------
-- Concrete example snapshots (used to instantiate hypotheses)

/-- Entity bits for slot 0, generation 1 (the first `hecs` allocation). -/
def examplePlayerEntity : Entity := ⟨4294967296⟩

/-- Entity bits for slot 1, generation 1. -/
def exampleMonsterEntity : Entity := ⟨4294967297⟩

/-- A concrete V1 snapshot in the shape `generate_save_file` produces: one
player whose `target` references the single monster's entity. -/
def exampleV1 : V1SaveState :=
  { players := [{ entity := examplePlayerEntity, health := 20, level := 1,
                  target := some exampleMonsterEntity }]
    monsters := [{ entity := exampleMonsterEntity, health := 20 }] }

/-- The empty V1 snapshot. -/
def emptyV1 : V1SaveState := { players := [], monsters := [] }

/-- A concrete V2 snapshot (the upgraded `exampleV1`). -/
def exampleV2 : V2SaveState := exampleV1.upgrade

-- ------------------------------------------------------
-- Unfolding lemmas for the instrumented loop

theorem convertLoopCounted_latest (x : V3SaveState) (acc : Nat) :
    GameState.convertLoopCounted (.V3_0 x) acc = (.V3_0 x, acc) := by
  rw [GameState.convertLoopCounted]
  simp [GameState.isLatest]

theorem convertLoopCounted_v2 (x : V2SaveState) (acc : Nat) :
    GameState.convertLoopCounted (.V2_0 x) acc = (.V3_0 x.upgrade, acc + 1) := by
  rw [GameState.convertLoopCounted]
  simp [GameState.isLatest, GameState.upgrade_version_counted,
    convertLoopCounted_latest]

/-- The migrated value is always the latest variant. -/
theorem convert_to_latest_isV3 (gs : GameState) :
    ∃ s3 : V3SaveState, gs.convert_to_latest = .V3_0 s3 := by
  cases gs with
  | V1_0 x => exact ⟨x.upgrade.upgrade, convert_to_latest_v1 x⟩
  | V2_0 x => exact ⟨x.upgrade, convert_to_latest_v2 x⟩
  | V3_0 x => exact ⟨x, convert_to_latest_v3 x⟩

-- ------------------------------------------------------
-- The claims

/-- C6. Idempotence of the terminal version: `convert_to_latest` on a
snapshot already at the latest version (`GameState::V3_0`) returns the very
same value. -/
theorem c6_terminal_idempotence (x : V3SaveState) :
    GameState.convert_to_latest (.V3_0 x) = .V3_0 x :=
  convert_to_latest_v3 x

/-- C7. Path independence: the engine's loop on a V1 snapshot produces
exactly the manual composition of the V1→V2 and V2→V3 transforms. -/
theorem c7_path_independence (s : V1SaveState) :
    GameState.convert_to_latest (.V1_0 s) =
      .V3_0 (V2SaveState.upgrade (V1SaveState.upgrade s)) :=
  convert_to_latest_v1 s

/-- C8. Step count and termination: `convert_to_latest` (total by
construction, hence terminating) applies exactly
`latestVersionIdx - versionIdx` per-version upgrade transforms — zero when
the snapshot is already latest — and the instrumented loop returns the same
migrated value as `convert_to_latest` itself. -/
theorem c8_step_count (gs : GameState) :
    GameState.convert_to_latest_counted gs =
      (gs.convert_to_latest, GameState.latestVersionIdx - gs.versionIdx) := by
  cases gs with
  | V1_0 x =>
      simp [GameState.convert_to_latest_counted, GameState.upgrade_version_counted,
        convertLoopCounted_v2, convert_to_latest_v1, GameState.versionIdx,
        GameState.latestVersionIdx]
  | V2_0 x =>
      simp [GameState.convert_to_latest_counted, GameState.upgrade_version_counted,
        convertLoopCounted_latest, convert_to_latest_v2, GameState.versionIdx,
        GameState.latestVersionIdx]
  | V3_0 x =>
      simp [GameState.convert_to_latest_counted, GameState.upgrade_version_counted,
        convertLoopCounted_latest, convert_to_latest_v3, GameState.versionIdx,
        GameState.latestVersionIdx]

/-- C10. Whenever `init_from_json` succeeds, the returned value is the
latest variant `GameState::V3_0` — never `V1_0` or `V2_0` — so the other
arms of the caller's match on the loaded state are unreachable. -/
theorem c10_init_returns_latest (parsed : Json) (gs : GameState)
    (h : GameState.init_from_json parsed = .ok gs) :
    ∃ s3 : V3SaveState, gs = .V3_0 s3 := by
  rw [GameState.init_from_json] at h
  cases hd : GameState.decode_tagged parsed with
  | error e => rw [hd] at h; simp [Except.map] at h
  | ok d =>
      rw [hd] at h
      simp only [Except.map, Except.ok.injEq] at h
      obtain ⟨s3, hs3⟩ := convert_to_latest_isV3 d
      exact ⟨s3, by rw [← h, hs3]⟩

/-- C4. Unknown tag rejection: any parsed input whose `version` attribute is
not one of the declared tags (absent, not a string, or some other string)
makes `init_from_json` return the unknown-version error, never a fallback
snapshot. -/
theorem c4_unknown_tag_rejection (parsed : Json)
    (h : ∀ s : String, (parsed.get GameState.VERSION_FIELD_NAME).asStr = some s →
      s ≠ "1.0" ∧ s ≠ "2.0" ∧ s ≠ "3.0") :
    GameState.init_from_json parsed = .error .unknownVersion := by
  simp only [GameState.init_from_json, GameState.decode_tagged]
  cases hv : (parsed.get GameState.VERSION_FIELD_NAME).asStr with
  | none => rfl
  | some s =>
      obtain ⟨h1, h2, h3⟩ := h s hv
      split <;> simp_all [Except.map]

/-- Witness for C4 at the spec's example input `{"version":"9.9","data":{}}`. -/
theorem c4_unknown_tag_rejection_witness :
    GameState.init_from_json (.obj [("version", .str "9.9"), ("data", .obj [])]) =
      .error .unknownVersion :=
  c4_unknown_tag_rejection _ (by
    intro s hs
    simp [Json.get, Json.asStr, lookupField, GameState.VERSION_FIELD_NAME] at hs
    subst hs
    decide)

/-- Witness for C10 at a concrete V1 envelope: the decoded state is `V3_0`. -/
theorem c10_init_returns_latest_witness :
    ∃ s3 : V3SaveState,
      (GameState.V3_0 { players := [], monsters := [] } : GameState) = .V3_0 s3 :=
  c10_init_returns_latest
    (.obj [("version", .str "1.0"),
           ("data", .obj [("players", .arr []), ("monsters", .arr [])])])
    (.V3_0 { players := [], monsters := [] })
    (by
      rw [GameState.init_from_json,
        show GameState.decode_tagged
            (.obj [("version", .str "1.0"),
                   ("data", .obj [("players", .arr []), ("monsters", .arr [])])]) =
          .ok (.V1_0 { players := [], monsters := [] }) from rfl]
      simp [Except.map, convert_to_latest_v1, V1SaveState.upgrade,
        V2SaveState.upgrade])

/-- The two upgrade transforms preserve the monster entity list verbatim. -/
theorem upgrade_monsters_entities (s : V1SaveState) :
    (V2SaveState.upgrade (V1SaveState.upgrade s)).monsters.map (·.entity) =
      s.monsters.map (·.entity) := by
  simp [V1SaveState.upgrade, V2SaveState.upgrade, List.map_map, Function.comp]

/-- C2. Reference preservation: if the `i`-th V1 player's `target` holds the
identifier of some monster in the snapshot, then after `convert_to_latest`
the `i`-th latest-version player's `target` holds the identical identifier
and a monster with that identifier still exists in the result. -/
theorem c2_reference_preservation (s : V1SaveState) (i : Nat) (p : V1SavePlayer)
    (idv : Entity) (hp : s.players[i]? = some p) (ht : p.target = some idv)
    (hm : idv ∈ s.monsters.map (·.entity)) :
    ∃ r : V3SaveState,
      GameState.convert_to_latest (.V1_0 s) = .V3_0 r ∧
      (∃ q : V3SavePlayer, r.players[i]? = some q ∧ q.target = some idv) ∧
      idv ∈ r.monsters.map (·.entity) := by
  refine ⟨V2SaveState.upgrade (V1SaveState.upgrade s), convert_to_latest_v1 s,
    ?_, ?_⟩
  · refine ⟨{ entity := p.entity, health := p.health, level := p.level,
              target := p.target, damage := 5 }, ?_, by rw [ht]⟩
    simp [V1SaveState.upgrade, V2SaveState.upgrade, List.getElem?_map, hp]
  · rw [upgrade_monsters_entities]
    exact hm

/-- Witness for C2 at `exampleV1`, whose only player targets its only
monster. -/
theorem c2_reference_preservation_witness :
    ∃ r : V3SaveState,
      GameState.convert_to_latest (.V1_0 exampleV1) = .V3_0 r ∧
      (∃ q : V3SavePlayer, r.players[0]? = some q ∧
        q.target = some exampleMonsterEntity) ∧
      exampleMonsterEntity ∈ r.monsters.map (·.entity) :=
  c2_reference_preservation exampleV1 0
    { entity := examplePlayerEntity, health := 20, level := 1,
      target := some exampleMonsterEntity }
    exampleMonsterEntity rfl rfl (by decide)

/-- C5. Default backfill: the V1→V2 upgrade gives every player `exp = 0`
and `damage = 5` and every monster `damage = 2`; the V2→V3 upgrade gives
every monster the default `variant = Angry`. -/
theorem c5_default_backfill :
    (∀ (s : V1SaveState), ∀ p ∈ (V1SaveState.upgrade s).players,
      p.exp = 0 ∧ p.damage = 5) ∧
    (∀ (s : V1SaveState), ∀ m ∈ (V1SaveState.upgrade s).monsters,
      m.damage = 2) ∧
    (∀ (s : V2SaveState), ∀ m ∈ (V2SaveState.upgrade s).monsters,
      m.variant = V3MonsterVariant.Angry) := by
  refine ⟨?_, ?_, ?_⟩ <;>
    (intro s x hx
     simp only [V1SaveState.upgrade, V2SaveState.upgrade, List.mem_map] at hx
     obtain ⟨y, -, rfl⟩ := hx
     simp)

/-- Witness for C5: the backfilled values of `exampleV1`'s records. -/
theorem c5_default_backfill_witness :
    (∀ p ∈ (V1SaveState.upgrade exampleV1).players, p.exp = 0 ∧ p.damage = 5) ∧
    (∀ m ∈ (V1SaveState.upgrade exampleV1).monsters, m.damage = 2) ∧
    (∀ m ∈ (V2SaveState.upgrade exampleV2).monsters,
      m.variant = V3MonsterVariant.Angry) :=
  ⟨c5_default_backfill.1 exampleV1, c5_default_backfill.2.1 exampleV1,
   c5_default_backfill.2.2 exampleV2⟩

/-- C9. Field removal: the V2→V3 upgrade drops the deprecated `exp` player
attribute entirely — the upgraded player's serialized form declares exactly
the keys `entity`, `health`, `level`, `target`, `damage`, hence no `exp`
key — while every retained attribute is copied unchanged. -/
theorem c9_field_removal (s : V2SaveState) (i : Nat) (p : V2SavePlayer)
    (hp : s.players[i]? = some p) :
    ∃ q : V3SavePlayer, (V2SaveState.upgrade s).players[i]? = some q ∧
      q.entity = p.entity ∧ q.health = p.health ∧ q.level = p.level ∧
      q.target = p.target ∧ q.damage = p.damage ∧
      (encodeV3SavePlayer q).objKeys =
        ["entity", "health", "level", "target", "damage"] ∧
      "exp" ∉ (encodeV3SavePlayer q).objKeys := by
  refine ⟨{ entity := p.entity, health := p.health, level := p.level,
            target := p.target, damage := p.damage },
    ?_, rfl, rfl, rfl, rfl, rfl, rfl, ?_⟩
  · simp [V2SaveState.upgrade, List.getElem?_map, hp]
  · simp [encodeV3SavePlayer, Json.objKeys]

/-- Witness for C9 at `exampleV2`'s only player. -/
theorem c9_field_removal_witness :
    ∃ q : V3SavePlayer, (V2SaveState.upgrade exampleV2).players[0]? = some q ∧
      q.entity = examplePlayerEntity ∧ q.health = 20 ∧ q.level = 1 ∧
      q.target = some exampleMonsterEntity ∧ q.damage = 5 ∧
      (encodeV3SavePlayer q).objKeys =
        ["entity", "health", "level", "target", "damage"] ∧
      "exp" ∉ (encodeV3SavePlayer q).objKeys :=
  c9_field_removal exampleV2 0
    { entity := examplePlayerEntity, health := 20, level := 1,
      target := some exampleMonsterEntity, exp := 0, damage := 5 } rfl

/-- C1 counterexample: the round-trip claim fails as stated. At the concrete
V1 snapshot `exampleV1`, decoding its own encoding yields the V3-promoted
snapshot, not a value equal to the original V1 snapshot: `init_from_json`
runs `convert_to_latest` on every successful decode. -/
theorem c1_round_trip_counterexample :
    GameState.init_from_json (GameState.save_to_json (.V1_0 exampleV1)) =
      .ok (.V3_0 (V2SaveState.upgrade (V1SaveState.upgrade exampleV1))) ∧
    GameState.init_from_json (GameState.save_to_json (.V1_0 exampleV1)) ≠
      .ok (.V1_0 exampleV1) := by
  have hwf : GameStateWF (.V1_0 exampleV1) := by decide
  have h1 : GameState.init_from_json (GameState.save_to_json (.V1_0 exampleV1)) =
      .ok (.V3_0 (V2SaveState.upgrade (V1SaveState.upgrade exampleV1))) := by
    rw [GameState.init_from_json, decode_tagged_save_to_json _ hwf, Except.map,
      convert_to_latest_v1]
  exact ⟨h1, by rw [h1]; simp⟩

/-- C1 (amended). Round trip with promotion: encoding tags the envelope
with the snapshot's own version and never upgrades, but decoding the result
yields `convert_to_latest` of the original — so `decode (encode S) = S`
holds exactly when `S` is already the latest version, and for V1/V2
snapshots the decoded value is the V3-promoted snapshot. -/
theorem c1_round_trip_amended (gs : GameState) (h : GameStateWF gs) :
    GameState.init_from_json (GameState.save_to_json gs) =
      .ok gs.convert_to_latest ∧
    (GameState.save_to_json gs).get GameState.VERSION_FIELD_NAME =
      .str gs.versionTag ∧
    (∀ s3 : V3SaveState, gs = .V3_0 s3 →
      GameState.init_from_json (GameState.save_to_json gs) = .ok gs) := by
  have h1 : GameState.init_from_json (GameState.save_to_json gs) =
      .ok gs.convert_to_latest := by
    rw [GameState.init_from_json, decode_tagged_save_to_json gs h, Except.map]
  refine ⟨h1, ?_, ?_⟩
  · cases gs <;> rfl
  · intro s3 hs3
    subst hs3
    rw [h1, convert_to_latest_v3]

/-- Witness for C1 (amended) at the well-formed snapshot `V1_0 exampleV1`. -/
theorem c1_round_trip_amended_witness :
    GameState.init_from_json (GameState.save_to_json (.V1_0 exampleV1)) =
      .ok (GameState.convert_to_latest (.V1_0 exampleV1)) ∧
    (GameState.save_to_json (.V1_0 exampleV1)).get GameState.VERSION_FIELD_NAME =
      .str (GameState.versionTag (.V1_0 exampleV1)) ∧
    (∀ s3 : V3SaveState, (GameState.V1_0 exampleV1 : GameState) = .V3_0 s3 →
      GameState.init_from_json (GameState.save_to_json (.V1_0 exampleV1)) =
        .ok (.V1_0 exampleV1)) :=
  c1_round_trip_amended (.V1_0 exampleV1) (by decide)

-- ------------------------------------------------------
-- Strict-decoding analysis

theorem except_error_bind (e : DecodeError) (f : α → Except DecodeError β) :
    (Except.error e >>= f : Except DecodeError β) = .error e := rfl

theorem except_ok_bind (a : α) (f : α → Except DecodeError β) :
    (Except.ok a >>= f : Except DecodeError β) = f a := rfl

/-- Appending a binding for a fresh key does not change any other key's
lookup. -/
theorem lookupField_append_notin (fields : List (String × Json)) (k : String)
    (v : Json) (key : String) (h : key ≠ k) :
    lookupField (fields ++ [(k, v)]) key = lookupField fields key := by
  induction fields with
  | nil => simp [lookupField, Ne.symm h]
  | cons kv rest ih =>
      obtain ⟨k0, v0⟩ := kv
      simp only [List.cons_append, lookupField]
      split
      · rfl
      · exact ih

/-- C3 counterexample: strict decoding fails as stated for additional
attributes. A V1 payload carrying the undeclared attribute `extra` is
accepted by `init_from_json` (serde without `deny_unknown_fields` ignores
unknown fields), not rejected with a decode error. -/
theorem c3_strict_decoding_counterexample :
    GameState.init_from_json
      (.obj [("version", .str "1.0"),
             ("data", .obj [("players", .arr []), ("monsters", .arr []),
                            ("extra", .num 7)])]) =
      .ok (.V3_0 { players := [], monsters := [] }) := by
  rw [GameState.init_from_json,
    show GameState.decode_tagged
        (.obj [("version", .str "1.0"),
               ("data", .obj [("players", .arr []), ("monsters", .arr []),
                              ("extra", .num 7)])]) =
      .ok (.V1_0 { players := [], monsters := [] }) from rfl]
  simp [Except.map, convert_to_latest_v1, V1SaveState.upgrade,
    V2SaveState.upgrade]

/-- C3 (amended). Strict decoding except for additional attributes: a
missing required attribute, a wrong semantic type, or an enumerated variant
outside the closed set each make decoding fail (shown on the V1 player
schema's `health` attribute and the V3 monster variant, with payload
failures propagating to `init_from_json`), but an additional attribute not
declared by the schema is ignored, leaving the decode result unchanged. -/
theorem c3_strict_decoding :
    (∀ fields : List (String × Json), lookupField fields "health" = none →
      ∃ e, decodeV1SavePlayer (.obj fields) = .error e) ∧
    (∀ (fields : List (String × Json)) (s : String),
      lookupField fields "health" = some (.str s) →
      ∃ e, decodeV1SavePlayer (.obj fields) = .error e) ∧
    (∀ s : String, s ≠ "Angry" → s ≠ "Scary" →
      decodeV3MonsterVariant (.str s) = .error .malformedPayload) ∧
    (∀ d : Json, (∃ e, decodeV1SaveState d = .error e) →
      ∃ e, GameState.init_from_json
        (.obj [("version", .str "1.0"), ("data", d)]) = .error e) ∧
    (∀ (fields : List (String × Json)) (k : String) (v : Json),
      k ∉ ["entity", "health", "level", "target"] →
      decodeV1SavePlayer (.obj (fields ++ [(k, v)])) =
        decodeV1SavePlayer (.obj fields)) := by
  refine ⟨?_, ?_, ?_, ?_, ?_⟩
  · intro fields hnone
    cases h1 : lookupField fields "entity" with
    | none =>
        exact ⟨.malformedPayload, by
          simp [decodeV1SavePlayer, reqField, h1, except_error_bind]⟩
    | some v1 =>
        cases hd1 : decodeEntity v1 with
        | error e =>
            exact ⟨e, by
              simp [decodeV1SavePlayer, reqField, h1, hd1, except_error_bind,
                except_ok_bind]⟩
        | ok a1 =>
            exact ⟨.malformedPayload, by
              simp [decodeV1SavePlayer, reqField, h1, hd1, hnone,
                except_error_bind, except_ok_bind]⟩
  · intro fields s hstr
    cases h1 : lookupField fields "entity" with
    | none =>
        exact ⟨.malformedPayload, by
          simp [decodeV1SavePlayer, reqField, h1, except_error_bind]⟩
    | some v1 =>
        cases hd1 : decodeEntity v1 with
        | error e =>
            exact ⟨e, by
              simp [decodeV1SavePlayer, reqField, h1, hd1, except_error_bind,
                except_ok_bind]⟩
        | ok a1 =>
            exact ⟨.malformedPayload, by
              simp [decodeV1SavePlayer, reqField, h1, hd1, hstr, decodeU32,
                except_error_bind, except_ok_bind]⟩
  · intro s h1 h2
    unfold decodeV3MonsterVariant
    split <;> simp_all
  · intro d hd
    obtain ⟨e, he⟩ := hd
    refine ⟨e, ?_⟩
    simp [GameState.init_from_json, GameState.decode_tagged,
      GameState.VERSION_FIELD_NAME, GameState.DATA_FIELD_NAME, Json.get,
      Json.asStr, lookupField, he, Except.map]
  · intro fields k v hk
    have h1 := lookupField_append_notin fields k v "entity"
      (fun hh => hk (by rw [← hh]; simp))
    have h2 := lookupField_append_notin fields k v "health"
      (fun hh => hk (by rw [← hh]; simp))
    have h3 := lookupField_append_notin fields k v "level"
      (fun hh => hk (by rw [← hh]; simp))
    have h4 := lookupField_append_notin fields k v "target"
      (fun hh => hk (by rw [← hh]; simp))
    simp only [decodeV1SavePlayer, reqField, h1, h2, h3, h4]

/-- Witness for C3 (amended): a missing `health`, a string-typed `health`,
the out-of-set variant `Bored`, a null payload, and the fresh attribute
`mana`. -/
theorem c3_strict_decoding_witness :
    (∃ e, decodeV1SavePlayer (.obj [("entity", .num 4294967296),
        ("level", .num 1), ("target", .null)]) = .error e) ∧
    (∃ e, decodeV1SavePlayer (.obj [("entity", .num 4294967296),
        ("health", .str "full"), ("level", .num 1), ("target", .null)]) =
      .error e) ∧
    decodeV3MonsterVariant (.str "Bored") = .error .malformedPayload ∧
    (∃ e, GameState.init_from_json
      (.obj [("version", .str "1.0"), ("data", .null)]) = .error e) ∧
    decodeV1SavePlayer (.obj ([("entity", .num 4294967296),
        ("health", .num 20), ("level", .num 1), ("target", .null)] ++
        [("mana", .num 7)])) =
      decodeV1SavePlayer (.obj [("entity", .num 4294967296),
        ("health", .num 20), ("level", .num 1), ("target", .null)]) :=
  ⟨c3_strict_decoding.1 _ rfl,
   c3_strict_decoding.2.1 _ "full" rfl,
   c3_strict_decoding.2.2.1 "Bored" (by decide) (by decide),
   c3_strict_decoding.2.2.2.1 .null ⟨.malformedPayload, rfl⟩,
   c3_strict_decoding.2.2.2.2 _ "mana" (.num 7) (by decide)⟩
